import Mathlib

/-!
Verification of `src/reset_elo_usb.py` (USB bus reset utility for Elo
TouchSystems devices).

The Python program is embedded shallowly:

* pure data (`USBBusInfo`, devices, sysfs paths) becomes Lean structures;
* the outside world (libusb enumeration, sysfs existence checks, sysfs
  writes succeeding or failing) is passed in as explicit oracles;
* Python exceptions become an `Except PyErr` result, and the Python rule
  that a `@dataclass` with (default) `eq=True, frozen=False` has
  `__hash__ = None`, hence is unhashable, is modelled explicitly in
  `dataclassHashable` / `pySet`;
* the thread-pool timing of `reset_buses_parallel` (lines 178-219) is
  modelled with rational time stamps: every phase-1 future starts at time 0
  (the pool has `max_workers = len(buses)` fresh workers), the main thread
  collects results sequentially with `future.result(timeout=1.0)`, sleeps
  `reset_delay`, and then submits the phase-2 futures.
-/

namespace ResetElo

/-- Elo TouchSystems vendor id, constant `ELO_VENDOR_ID` (line 30). -/
def ELO_VENDOR_ID : Nat := 0x04E7

/-- Default delay between disable and enable, `DEFAULT_RESET_DELAY` (line 31). -/
def DEFAULT_RESET_DELAY : ℚ := 1

/-- Root of the sysfs USB hierarchy, `SYSFS_USB_PATH` (line 32). -/
def SYSFS_USB_PATH : String := "/sys/bus/usb/devices"

/-- The control path resolved for a bus: `SYSFS_USB_PATH / f"usb{bus_num}" / "authorized"`
(line 96). -/
def sysfsPathFor (busNum : Nat) : String :=
  SYSFS_USB_PATH ++ "/usb" ++ toString busNum ++ "/authorized"

/-- One record returned by the enumeration facility (`usb.core.find`): the
owning bus number and the vendor id. -/
structure USBDevice where
  bus : Nat
  idVendor : Nat
deriving DecidableEq

/-- Container for USB bus information, the `USBBusInfo` dataclass (lines 42-47). -/
structure USBBusInfo where
  bus_number : Nat
  device_count : Nat
  sysfs_path : String
deriving DecidableEq

/-- The Python exceptions that can escape the functions under study. -/
inductive PyErr where
  | typeError
  | usbBusResetError
deriving DecidableEq

/-- Python dataclass hashability: `@dataclass` adds `__hash__` only when
`eq` is false (inherit `object.__hash__`) or `frozen` is true; with the
default `eq=True, frozen=False` it sets `__hash__ = None`, making
instances unhashable. -/
def dataclassHashable (eq frozen : Bool) : Bool :=
  !eq || frozen

/-- `USBBusInfo` is declared `@dataclass` with no arguments (line 42), so
`eq=True, frozen=False`. -/
def usbBusInfoHashable : Bool :=
  dataclassHashable true false

/-- `set(xs)`: hashes each element; an empty iterable never hashes anything,
a non-empty one raises `TypeError` when the elements are unhashable. -/
def pySet {α : Type} [DecidableEq α] (hashable : Bool) (xs : List α) :
    Except PyErr (List α) :=
  match xs with
  | [] => .ok []
  | _ :: _ => if hashable then .ok xs.dedup else .error .typeError

/-- The accumulation loop of `find_elo_buses` (lines 93-109).  State: the
`buses` dict (Python dicts preserve insertion order; the key of each entry
equals its `bus_number`) and the trace of sysfs existence checks performed,
as pairs (index of the device in enumeration order, bus number).  The
existence oracle `pathExists i b` answers the check made while handling the
device at index `i` for bus `b`; the check happens only in the
`bus_num not in buses` branch (line 95). -/
def locateLoop (pathExists : Nat → Nat → Bool) :
    List (Nat × USBDevice) → List USBBusInfo → List (Nat × Nat) →
    List USBBusInfo × List (Nat × Nat)
  | [], buses, checks => (buses, checks)
  | (i, d) :: rest, buses, checks =>
    if buses.any (fun b => b.bus_number == d.bus) then
      locateLoop pathExists rest
        (buses.map (fun b =>
          if b.bus_number == d.bus then
            { b with device_count := b.device_count + 1 }
          else b))
        checks
    else
      if pathExists i d.bus then
        locateLoop pathExists rest
          (buses ++ [⟨d.bus, 1, sysfsPathFor d.bus⟩])
          (checks ++ [(i, d.bus)])
      else
        locateLoop pathExists rest buses (checks ++ [(i, d.bus)])

/-- The devices `usb.core.find(find_all=True, idVendor=vendor_id)` yields
(line 91), in enumeration order, paired with their index. -/
def matchingDevices (allDevices : List USBDevice) (vendor_id : Nat) :
    List (Nat × USBDevice) :=
  (allDevices.filter (fun d => d.idVendor == vendor_id)).enum

/-- The `buses` dict built by a discovery pass, as its (ordered) value list. -/
def locateAccepted (pathExists : Nat → Nat → Bool)
    (allDevices : List USBDevice) (vendor_id : Nat) : List USBBusInfo :=
  (locateLoop pathExists (matchingDevices allDevices vendor_id) [] []).1

/-- The sysfs existence checks a discovery pass performs, in order. -/
def locateChecks (pathExists : Nat → Nat → Bool)
    (allDevices : List USBDevice) (vendor_id : Nat) : List (Nat × Nat) :=
  (locateLoop pathExists (matchingDevices allDevices vendor_id) [] []).2

/-- `find_elo_buses` (lines 74-114).  `enumFails` is true when the
enumeration facility itself raises inside the `try` block; that exception
is wrapped as `USBBusResetError` (lines 111-112).  The final
`set(buses.values())` (line 114) sits outside the `try` block, so the
`TypeError` it raises on unhashable elements is not wrapped. -/
def find_elo_buses (enumFails : Bool) (allDevices : List USBDevice)
    (pathExists : Nat → Nat → Bool) (vendor_id : Nat) :
    Except PyErr (List USBBusInfo) :=
  if enumFails then .error .usbBusResetError
  else pySet usbBusInfoHashable (locateAccepted pathExists allDevices vendor_id)

/-- The string written to deauthorize a bus (lines 135 and 183). -/
def disablePayload : String := "0\n"

/-- The string written to re-authorize a bus (lines 143 and 204). -/
def enablePayload : String := "1\n"

/-- Which of the two barrier phases a write belongs to. -/
inductive UPhase where
  | disable
  | enable
deriving DecidableEq

/-- One sysfs write attempt issued by the coordinator: phase, target bus and
the exact string handed to `write_text`. -/
structure WriteEvent where
  phase : UPhase
  bus : Nat
  payload : String
deriving DecidableEq

/-- The write attempts `reset_buses_parallel` issues (lines 178-207): both
submission loops (lines 181-186 and 202-207) iterate over every bus
unconditionally, so every submitted future performs its `write_text`
attempt whatever the outcome oracles say; `future.result` exceptions are
caught per-future (lines 190-194 and 212-217) and cancel nothing. -/
def reset_write_attempts (disableOk enableOk : Nat → Bool)
    (buses : List USBBusInfo) : List WriteEvent :=
  if buses.isEmpty then []
  else
    buses.map (fun b => ⟨UPhase.disable, b.bus_number, disablePayload⟩)
      ++ buses.map (fun b => ⟨UPhase.enable, b.bus_number, enablePayload⟩)

/-- The value `reset_buses_parallel` returns (lines 156-219).  `disableOk b`
and `enableOk b` say whether bus `b`'s phase-1 and phase-2 writes are
observed to succeed within `future.result(timeout=1.0)`.  Phase-1 results
are only logged (lines 189-194); `success_count` is incremented once per
enable future whose `result` call returns (lines 209-217), so only
`enableOk` reaches the returned count.  `reset_delay` is slept away between
the phases (line 198) and does not touch the count. -/
def reset_buses_parallel (disableOk enableOk : Nat → Bool)
    (buses : List USBBusInfo) (reset_delay : ℚ) : Nat :=
  if buses.isEmpty then 0
  else
    let enable_futures := buses.map (fun b => (enableOk b.bus_number, b))
    enable_futures.foldl (fun acc fb => if fb.1 then acc + 1 else acc) 0

/-- The aggregate the specification describes: the number of buses for which
BOTH the phase-1 and the phase-2 write succeeded.  Stated from the spec's
words, for comparison with `reset_buses_parallel`. -/
def successCount_spec (disableOk enableOk : Nat → Bool)
    (buses : List USBBusInfo) : Nat :=
  (buses.filter (fun b => disableOk b.bus_number && enableOk b.bus_number)).length

/-- The timeout handed to every `future.result` call (lines 191 and 213),
in seconds. -/
def RESULT_TIMEOUT : ℚ := 1

/-- The phase-1 collection loop (lines 189-194) as a timing model.  All
phase-1 futures start at time 0 (the fresh pool has one worker per bus);
`d1s` lists, in submission order, the time at which each bus's phase-1
write finishes.  The main thread holds a clock `t`: `future.result(timeout)`
returns immediately when the future already finished, waits until the
finish when that arrives within `timeout`, and otherwise raises after a
full `timeout`, leaving the write running.  Returns the clock after the
loop and, per future, whether its wait timed out. -/
def collectDisable (timeout : ℚ) : List ℚ → ℚ → ℚ × List Bool
  | [], t => (t, [])
  | d :: rest, t =>
    if d ≤ t then
      let r := collectDisable timeout rest t
      (r.1, false :: r.2)
    else if d ≤ t + timeout then
      let r := collectDisable timeout rest d
      (r.1, false :: r.2)
    else
      let r := collectDisable timeout rest (t + timeout)
      (r.1, true :: r.2)

/-- The time at which the phase-2 submission loop (lines 202-207) starts:
the phase-1 collection loop ends, then `time.sleep(reset_delay)` (line 198). -/
def phase2IssueTime (timeout reset_delay : ℚ) (d1s : List ℚ) : ℚ :=
  (collectDisable timeout d1s 0).1 + reset_delay

/-- Python `x or default` for an optional numeric argument: `None`, `0` and
`0.0` are all falsy, so each of them yields the default (lines 252-253). -/
def pyTruthyOr {α : Type} [Zero α] [DecidableEq α] (x : Option α) (d : α) : α :=
  match x with
  | none => d
  | some v => if v = 0 then d else v

/-- `delay = reset_delay or DEFAULT_RESET_DELAY` (line 252). -/
def mainEffectiveDelay (reset_delay : Option ℚ) : ℚ :=
  pyTruthyOr reset_delay DEFAULT_RESET_DELAY

/-- `vid = vendor_id or ELO_VENDOR_ID` (line 253). -/
def mainEffectiveVid (vendor_id : Option Nat) : Nat :=
  pyTruthyOr vendor_id ELO_VENDOR_ID

/-- The outside world a run of `main` interacts with: the privilege check,
whether a `KeyboardInterrupt` arrives during the `try` block, whether the
enumeration facility fails, the attached devices, the sysfs existence
oracle and the per-bus write outcome oracles. -/
structure MainEnv where
  privileged : Bool
  interrupted : Bool
  enumFails : Bool
  allDevices : List USBDevice
  pathExists : Nat → Nat → Bool
  disableOk : Nat → Bool
  enableOk : Nat → Bool

/-- `main` (lines 235-291): privilege check (lines 247-249), defaulting of
the two optional arguments (lines 252-253), then the `try` block: discovery,
the empty-set early return with code 0 (lines 259-261), the parallel reset
and the aggregate dispatch (lines 273-281); `USBBusResetError` gives 1,
`KeyboardInterrupt` gives 130 and any other exception gives 1
(lines 283-291). -/
def mainRun (env : MainEnv) (reset_delay : Option ℚ) (vendor_id : Option Nat) :
    Nat :=
  if env.privileged = false then 1
  else if env.interrupted then 130
  else
    match find_elo_buses env.enumFails env.allDevices env.pathExists
        (mainEffectiveVid vendor_id) with
    | .error .usbBusResetError => 1
    | .error .typeError => 1
    | .ok buses =>
      if buses.isEmpty then 0
      else
        let success_count :=
          reset_buses_parallel env.disableOk env.enableOk buses
            (mainEffectiveDelay reset_delay)
        if success_count = buses.length then 0
        else if 0 < success_count then 2
        else 1

/-- Every sysfs write attempt a run of `main` performs.  Discovery itself
only reads; writes happen solely inside `reset_buses_parallel`, which is
reached only when discovery returned normally with a non-empty set. -/
def mainWrites (env : MainEnv) (vendor_id : Option Nat) : List WriteEvent :=
  if env.privileged = false then []
  else if env.interrupted then []
  else
    match find_elo_buses env.enumFails env.allDevices env.pathExists
        (mainEffectiveVid vendor_id) with
    | .error _ => []
    | .ok buses =>
      if buses.isEmpty then []
      else reset_write_attempts env.disableOk env.enableOk buses

/-- The exit-code mapping as the specification states it: 130 when
cancelled; 1 on a discovery error or an unexpected error; 0 when zero buses
were found; among one or more targeted buses, 0 when every one succeeded,
1 on zero successes, 2 on a partial success.  Stated from the spec's words,
for comparison with `mainRun`. -/
def exitCode_spec (env : MainEnv) (reset_delay : Option ℚ)
    (vendor_id : Option Nat) : Nat :=
  if env.interrupted then 130
  else
    match find_elo_buses env.enumFails env.allDevices env.pathExists
        (mainEffectiveVid vendor_id) with
    | .error _ => 1
    | .ok buses =>
      if buses.isEmpty then 0
      else
        let s :=
          reset_buses_parallel env.disableOk env.enableOk buses
            (mainEffectiveDelay reset_delay)
        if s = buses.length then 0
        else if s = 0 then 1
        else 2

end ResetElo
namespace ResetElo

/-! ### Helper lemmas -/

lemma foldl_count {α : Type} (p : α → Bool) :
    ∀ (l : List α) (n : Nat),
      l.foldl (fun acc x => if p x then acc + 1 else acc) n
        = n + (l.filter p).length := by
  intro l
  induction l with
  | nil => intro n; simp
  | cons x xs ih =>
    intro n
    by_cases h : p x
    · simp [List.foldl_cons, List.filter_cons, h, ih]
      omega
    · simp [List.foldl_cons, List.filter_cons, h, ih]

lemma pySet_unhashable_cases (l : List USBBusInfo) :
    pySet usbBusInfoHashable l = .ok []
      ∨ pySet usbBusInfoHashable l = .error .typeError := by
  cases l with
  | nil => left; rfl
  | cons x xs => right; rfl

/-! ### C1 -/

/-- C1: the claim says `successCount` counts buses where BOTH phases
succeeded.  Counterexample: one bus whose disable write fails and whose
enable write succeeds is still counted, so the returned count is 1 while
the number of buses with both phases succeeded is 0. -/
theorem C1_counterexample :
    reset_buses_parallel (fun _ => false) (fun _ => true)
        [⟨1, 1, sysfsPathFor 1⟩] DEFAULT_RESET_DELAY = 1
      ∧ successCount_spec (fun _ => false) (fun _ => true)
        [⟨1, 1, sysfsPathFor 1⟩] = 0
      ∧ ([⟨1, 1, sysfsPathFor 1⟩] : List USBBusInfo) ≠ [] := by
  refine ⟨rfl, rfl, ?_⟩
  intro h
  cases h

/-- C1 (amended): for every non-empty bus set, the returned `success_count`
equals the number of buses whose phase-2 (enable) write succeeded; the
phase-1 (disable) outcome does not enter the count. -/
theorem C1_theorem (disableOk enableOk : Nat → Bool)
    (buses : List USBBusInfo) (reset_delay : ℚ) (hne : buses ≠ []) :
    reset_buses_parallel disableOk enableOk buses reset_delay
      = (buses.filter (fun b => enableOk b.bus_number)).length := by
  cases buses with
  | nil => exact absurd rfl hne
  | cons x xs =>
    show (((x :: xs).map (fun b => (enableOk b.bus_number, b))).foldl
        (fun acc fb => if fb.1 then acc + 1 else acc) 0)
      = ((x :: xs).filter (fun b => enableOk b.bus_number)).length
    rw [List.foldl_map]
    simpa using foldl_count (fun b => enableOk b.bus_number) (x :: xs) 0

/-- C1 witness: a concrete two-bus run, one enable failing. -/
theorem C1_witness :
    reset_buses_parallel (fun _ => true) (fun n => n == 2)
        [⟨2, 1, sysfsPathFor 2⟩, ⟨4, 1, sysfsPathFor 4⟩] 1 = 1 :=
  C1_theorem (fun _ => true) (fun n => n == 2)
    [⟨2, 1, sysfsPathFor 2⟩, ⟨4, 1, sysfsPathFor 4⟩] 1 (by decide)

/-! ### C4 -/

/-- C4: the claim says each write is exactly one ASCII digit with no other
characters.  Counterexample: the coordinator writes the two-character
strings "0\n" and "1\n" (digit plus newline). -/
theorem C4_counterexample :
    reset_write_attempts (fun _ => true) (fun _ => true) [⟨1, 1, sysfsPathFor 1⟩]
        = [⟨UPhase.disable, 1, disablePayload⟩, ⟨UPhase.enable, 1, enablePayload⟩]
      ∧ disablePayload ≠ "0" ∧ disablePayload.length = 2
      ∧ enablePayload ≠ "1" ∧ enablePayload.length = 2 := by
  exact ⟨rfl, by decide, by decide, by decide, by decide⟩

/-- C4 (amended): every write the coordinator issues is the digit followed
by a newline: "0\n" in phase 1 and "1\n" in phase 2. -/
theorem C4_theorem (disableOk enableOk : Nat → Bool) (buses : List USBBusInfo)
    (ev : WriteEvent) (hmem : ev ∈ reset_write_attempts disableOk enableOk buses) :
    (ev.phase = UPhase.disable → ev.payload = disablePayload)
      ∧ (ev.phase = UPhase.enable → ev.payload = enablePayload) := by
  unfold reset_write_attempts at hmem
  split at hmem
  · cases hmem
  · rw [List.mem_append] at hmem
    rcases hmem with h | h
    · rcases List.mem_map.mp h with ⟨b, _, rfl⟩
      exact ⟨fun _ => rfl, fun h2 => UPhase.noConfusion h2⟩
    · rcases List.mem_map.mp h with ⟨b, _, rfl⟩
      exact ⟨fun h2 => UPhase.noConfusion h2, fun _ => rfl⟩

/-- C4 witness: the disable attempt on a concrete bus carries "0\n". -/
theorem C4_witness :
    ((⟨UPhase.disable, 3, disablePayload⟩ : WriteEvent).phase = UPhase.disable →
        (⟨UPhase.disable, 3, disablePayload⟩ : WriteEvent).payload = disablePayload)
      ∧ ((⟨UPhase.disable, 3, disablePayload⟩ : WriteEvent).phase = UPhase.enable →
        (⟨UPhase.disable, 3, disablePayload⟩ : WriteEvent).payload = enablePayload) :=
  C4_theorem (fun _ => true) (fun _ => false) [⟨3, 1, sysfsPathFor 3⟩]
    ⟨UPhase.disable, 3, disablePayload⟩ (by decide)

/-! ### C6 -/

/-- C6: for every bus of the input set, both a phase-1 and a phase-2 write
attempt are issued, and the attempt list does not depend on the outcome
oracles at all: no bus's failure blocks or cancels another bus's writes in
either phase, and a bus's own phase-1 failure does not suppress its
phase-2 attempt. -/
theorem C6_theorem (disableOk enableOk disableOk2 enableOk2 : Nat → Bool)
    (buses : List USBBusInfo) (b : USBBusInfo) (hmem : b ∈ buses) :
    (⟨UPhase.enable, b.bus_number, enablePayload⟩ : WriteEvent)
        ∈ reset_write_attempts disableOk enableOk buses
      ∧ (⟨UPhase.disable, b.bus_number, disablePayload⟩ : WriteEvent)
        ∈ reset_write_attempts disableOk enableOk buses
      ∧ reset_write_attempts disableOk enableOk buses
        = reset_write_attempts disableOk2 enableOk2 buses := by
  have hne : buses ≠ [] := List.ne_nil_of_mem hmem
  refine ⟨?_, ?_, rfl⟩ <;>
    · unfold reset_write_attempts
      rw [if_neg (by simpa using hne)]
      rw [List.mem_append]
      first
        | exact Or.inr (List.mem_map.mpr ⟨b, hmem, rfl⟩)
        | exact Or.inl (List.mem_map.mpr ⟨b, hmem, rfl⟩)

/-- C6 witness: a concrete bus receives its enable attempt even though both
its writes fail. -/
theorem C6_witness :
    (⟨UPhase.enable, 5, enablePayload⟩ : WriteEvent)
        ∈ reset_write_attempts (fun _ => false) (fun _ => false)
            [⟨5, 2, sysfsPathFor 5⟩]
      ∧ (⟨UPhase.disable, 5, disablePayload⟩ : WriteEvent)
        ∈ reset_write_attempts (fun _ => false) (fun _ => false)
            [⟨5, 2, sysfsPathFor 5⟩]
      ∧ reset_write_attempts (fun _ => false) (fun _ => false)
            [⟨5, 2, sysfsPathFor 5⟩]
        = reset_write_attempts (fun _ => true) (fun _ => true)
            [⟨5, 2, sysfsPathFor 5⟩] :=
  C6_theorem (fun _ => false) (fun _ => false) (fun _ => true) (fun _ => true)
    [⟨5, 2, sysfsPathFor 5⟩] ⟨5, 2, sysfsPathFor 5⟩ (by decide)

/-! ### C10 -/

/-- C10: the truthiness-based defaulting in main replaces an explicit 0.0
delay and an explicit vendor id 0 with the defaults (1.0 s and 0x04E7), so
those requested values are never used; in particular a run with vendor id 0
behaves exactly like a run with the default vendor id. -/
theorem C10_theorem :
    mainEffectiveDelay (some 0) = DEFAULT_RESET_DELAY
      ∧ mainEffectiveVid (some 0) = ELO_VENDOR_ID
      ∧ DEFAULT_RESET_DELAY ≠ 0
      ∧ ELO_VENDOR_ID ≠ 0
      ∧ (∀ (env : MainEnv) (rd : Option ℚ),
          mainRun env rd (some 0) = mainRun env rd (some ELO_VENDOR_ID)) := by
  refine ⟨rfl, rfl, by norm_num [DEFAULT_RESET_DELAY], by decide, ?_⟩
  intro env rd
  rfl

/-! ### C7 -/

/-- C7: the claim says the Locator returns exactly one descriptor per
distinct bus whose control path exists, with accumulated device counts.
The accumulation pass does build exactly that (here buses 1 and 3, counts
2 and 1), but the final `set(buses.values())` raises `TypeError` because
`USBBusInfo` is an unhashable dataclass, so the Locator never returns a
non-empty result: the code contradicts its own documented return value. -/
theorem C7_theorem :
    locateAccepted (fun _ _ => true)
        [⟨1, ELO_VENDOR_ID⟩, ⟨1, ELO_VENDOR_ID⟩, ⟨3, ELO_VENDOR_ID⟩]
        ELO_VENDOR_ID
        = [⟨1, 2, sysfsPathFor 1⟩, ⟨3, 1, sysfsPathFor 3⟩]
      ∧ find_elo_buses false
        [⟨1, ELO_VENDOR_ID⟩, ⟨1, ELO_VENDOR_ID⟩, ⟨3, ELO_VENDOR_ID⟩]
        (fun _ _ => true) ELO_VENDOR_ID
        = .error .typeError :=
  ⟨rfl, rfl⟩

/-! ### C2 -/

/-- C2: a discovery pass that accepts at least one bus raises `TypeError`
from `set(buses.values())` (the unhashable-dataclass hazard); the raise
happens outside the try block, so it is not wrapped as `USBBusResetError`
and main reports it as an unexpected error with exit code 1; a pass that
accepts no bus returns the empty set normally. -/
theorem C2_theorem (devs : List USBDevice) (pathExists : Nat → Nat → Bool)
    (vidOpt : Option Nat) (disableOk enableOk : Nat → Bool) (rd : Option ℚ)
    (hne : locateAccepted pathExists devs (mainEffectiveVid vidOpt) ≠ []) :
    usbBusInfoHashable = false
      ∧ find_elo_buses false devs pathExists (mainEffectiveVid vidOpt)
          = .error .typeError
      ∧ mainRun ⟨true, false, false, devs, pathExists, disableOk, enableOk⟩
          rd vidOpt = 1
      ∧ (∀ (devs2 : List USBDevice) (pe2 : Nat → Nat → Bool) (vid2 : Nat),
          locateAccepted pe2 devs2 vid2 = [] →
            find_elo_buses false devs2 pe2 vid2 = .ok []) := by
  have hfind : find_elo_buses false devs pathExists (mainEffectiveVid vidOpt)
      = .error .typeError := by
    unfold find_elo_buses
    rcases h : locateAccepted pathExists devs (mainEffectiveVid vidOpt) with
      _ | ⟨x, xs⟩
    · exact absurd h hne
    · rfl
  refine ⟨rfl, hfind, ?_, ?_⟩
  · show (match find_elo_buses false devs pathExists (mainEffectiveVid vidOpt) with
      | .error .usbBusResetError => 1
      | .error .typeError => 1
      | .ok buses =>
        if buses.isEmpty then 0
        else
          let success_count :=
            reset_buses_parallel disableOk enableOk buses (mainEffectiveDelay rd)
          if success_count = buses.length then 0
          else if 0 < success_count then 2
          else 1) = 1
    rw [hfind]
  · intro devs2 pe2 vid2 h
    unfold find_elo_buses
    rw [h]
    rfl

/-- C2 witness: one Elo device on bus 1 with an existing control path. -/
theorem C2_witness :
    usbBusInfoHashable = false
      ∧ find_elo_buses false [⟨1, ELO_VENDOR_ID⟩] (fun _ _ => true)
          (mainEffectiveVid none) = .error .typeError
      ∧ mainRun ⟨true, false, false, [⟨1, ELO_VENDOR_ID⟩], fun _ _ => true,
          fun _ => true, fun _ => true⟩ none none = 1
      ∧ (∀ (devs2 : List USBDevice) (pe2 : Nat → Nat → Bool) (vid2 : Nat),
          locateAccepted pe2 devs2 vid2 = [] →
            find_elo_buses false devs2 pe2 vid2 = .ok []) :=
  C2_theorem [⟨1, ELO_VENDOR_ID⟩] (fun _ _ => true) none
    (fun _ => true) (fun _ => true) none (by decide)

end ResetElo
namespace ResetElo

/-! ### C5 -/

lemma collectDisable_le (timeout : ℚ) (ht : 0 ≤ timeout) :
    ∀ (l : List ℚ) (t : ℚ), t ≤ (collectDisable timeout l t).1 := by
  intro l
  induction l with
  | nil => intro t; exact le_refl t
  | cons d rest ih =>
    intro t
    simp only [collectDisable]
    split_ifs with h1 h2
    · exact ih t
    · exact le_trans (le_of_lt (not_le.mp h1)) (ih d)
    · exact le_trans (le_add_of_nonneg_right ht) (ih (t + timeout))

lemma collectDisable_zip (timeout : ℚ) (ht : 0 ≤ timeout) :
    ∀ (l : List ℚ) (t : ℚ) (p : ℚ × Bool),
      p ∈ l.zip (collectDisable timeout l t).2 → p.2 = false →
      p.1 ≤ (collectDisable timeout l t).1 := by
  intro l
  induction l with
  | nil => intro t p hp _; cases hp
  | cons d rest ih =>
    intro t p hp hfalse
    simp only [collectDisable] at hp ⊢
    split_ifs at hp ⊢ with h1 h2
    · rcases List.mem_cons.mp hp with rfl | htl
      · exact le_trans h1 (collectDisable_le timeout ht rest t)
      · exact ih t p htl hfalse
    · rcases List.mem_cons.mp hp with rfl | htl
      · exact collectDisable_le timeout ht rest d
      · exact ih d p htl hfalse
    · rcases List.mem_cons.mp hp with rfl | htl
      · cases hfalse
      · exact ih (t + timeout) p htl hfalse

/-- C5: the claim says no phase-2 write is issued until every phase-1 write
has completed (success or failure).  Counterexample: with the 1.0 s result
timeout and a 1.0 s delay, a phase-1 write that takes 10 s is abandoned
after its timeout is exhausted; phase-2 submission starts at time 2, well
before that write finishes at time 10 (a second bus's worker is idle then,
so its phase-2 write also executes at time 2). -/
theorem C5_counterexample :
    phase2IssueTime RESULT_TIMEOUT DEFAULT_RESET_DELAY [10, 0] = 2
      ∧ ¬ ((10 : ℚ) ≤ phase2IssueTime RESULT_TIMEOUT DEFAULT_RESET_DELAY [10, 0])
      ∧ (10 : ℚ) ∈ ([10, 0] : List ℚ) := by
  refine ⟨?_, ?_, ?_⟩ <;>
    norm_num [phase2IssueTime, collectDisable, RESULT_TIMEOUT, DEFAULT_RESET_DELAY]

/-- C5 (amended): phase-2 submission starts exactly the inter-phase delay
after the phase-1 collection loop ends, and every phase-1 write whose
result wait did NOT time out has completed by the end of that loop; a write
whose wait timed out may still be running when phase 2 starts. -/
theorem C5_theorem (timeout reset_delay : ℚ) (d1s : List ℚ)
    (ht : 0 ≤ timeout) :
    phase2IssueTime timeout reset_delay d1s
        = (collectDisable timeout d1s 0).1 + reset_delay
      ∧ ∀ p ∈ d1s.zip (collectDisable timeout d1s 0).2,
          p.2 = false → p.1 ≤ (collectDisable timeout d1s 0).1 :=
  ⟨rfl, fun p hp hf => collectDisable_zip timeout ht d1s 0 p hp hf⟩

/-- C5 witness: one bus whose phase-1 write finishes within the timeout. -/
theorem C5_witness :
    phase2IssueTime 1 1 [(1 : ℚ)/2]
        = (collectDisable 1 [(1 : ℚ)/2] 0).1 + 1
      ∧ ∀ p ∈ ([(1 : ℚ)/2].zip (collectDisable 1 [(1 : ℚ)/2] 0).2),
          p.2 = false → p.1 ≤ (collectDisable 1 [(1 : ℚ)/2] 0).1 :=
  C5_theorem 1 1 [(1 : ℚ)/2] (by norm_num)

/-! ### C3 -/

lemma enumFrom_filter_snd {α : Type} (q : α → Bool) :
    ∀ (l : List α) (n : Nat),
      ((List.enumFrom n l).filter (fun p => q p.2)).length
        = (l.filter q).length := by
  intro l
  induction l with
  | nil => intro n; rfl
  | cons x xs ih =>
    intro n
    by_cases h : q x
    · simp [List.enumFrom, List.filter_cons, h, ih]
    · simp [List.enumFrom, List.filter_cons, h, ih]

lemma locateLoop_absent (pe : Nat → Nat → Bool) (b : Nat)
    (habs : ∀ i, pe i b = false) :
    ∀ (l : List (Nat × USBDevice)) (buses : List USBBusInfo)
      (checks : List (Nat × Nat)),
      (∀ info ∈ buses, info.bus_number ≠ b) →
      (∀ info ∈ (locateLoop pe l buses checks).1, info.bus_number ≠ b)
        ∧ ((locateLoop pe l buses checks).2.filter (fun c => c.2 == b)).length
          = (checks.filter (fun c => c.2 == b)).length
            + (l.filter (fun p => p.2.bus == b)).length := by
  intro l
  induction l with
  | nil =>
    intro buses checks hinv
    exact ⟨hinv, by simp [locateLoop]⟩
  | cons hd rest ih =>
    intro buses checks hinv
    obtain ⟨i, d⟩ := hd
    by_cases hAny : buses.any (fun x => x.bus_number == d.bus)
    · -- repeat sighting of an already-accepted bus, necessarily ≠ b
      have hdb : d.bus ≠ b := by
        rcases List.any_eq_true.mp hAny with ⟨x, hx, hxb⟩
        have hxd : x.bus_number = d.bus := by simpa using hxb
        intro hc
        exact hinv x hx (hxd.trans hc)
      have hinv2 : ∀ info ∈ buses.map (fun x =>
          if x.bus_number == d.bus then
            { x with device_count := x.device_count + 1 }
          else x), info.bus_number ≠ b := by
        intro info hi
        rcases List.mem_map.mp hi with ⟨x, hx, rfl⟩
        by_cases hxx : x.bus_number == d.bus
        · simpa [hxx] using hinv x hx
        · simpa [hxx] using hinv x hx
      have hrec := ih (buses.map (fun x =>
          if x.bus_number == d.bus then
            { x with device_count := x.device_count + 1 }
          else x)) checks hinv2
      simp only [locateLoop, if_pos hAny]
      refine ⟨hrec.1, ?_⟩
      rw [hrec.2]
      have hfd : (d.bus == b) = false := by simpa using hdb
      simp [List.filter_cons, hfd]
    · by_cases hPe : pe i d.bus
      · -- first sighting and the control path exists: d.bus ≠ b
        have hdb : d.bus ≠ b := by
          intro hc
          rw [hc, habs i] at hPe
          cases hPe
        have hinv2 : ∀ info ∈ buses ++ [(⟨d.bus, 1, sysfsPathFor d.bus⟩ :
            USBBusInfo)], info.bus_number ≠ b := by
          intro info hi
          rcases List.mem_append.mp hi with hi2 | hi2
          · exact hinv info hi2
          · rcases List.mem_singleton.mp hi2 with rfl
            exact hdb
        have hrec := ih (buses ++ [⟨d.bus, 1, sysfsPathFor d.bus⟩])
          (checks ++ [(i, d.bus)]) hinv2
        simp only [locateLoop, if_neg hAny, if_pos hPe]
        refine ⟨hrec.1, ?_⟩
        rw [hrec.2]
        have hfd : (d.bus == b) = false := by simpa using hdb
        simp [List.filter_cons, List.filter_append, hfd]
      · -- first sighting, control path absent: skipped, check recorded
        have hrec := ih buses (checks ++ [(i, d.bus)]) hinv
        simp only [locateLoop, if_neg hAny, if_neg hPe]
        refine ⟨hrec.1, ?_⟩
        rw [hrec.2]
        by_cases hdb : d.bus = b
        · subst hdb
          simp [List.filter_cons, List.filter_append]
          omega
        · have hfd : (d.bus == b) = false := by simpa using hdb
          simp [List.filter_cons, List.filter_append, hfd]

/-- C3: the claim says that after a first absent sighting every later
device on that bus is skipped without re-resolving or re-checking the
control path.  Counterexample: with two matching devices on bus 1 and the
path absent, the pass performs an existence check at BOTH sightings
(indices 0 and 1); and when the path is absent at index 0 but present at
index 1, the retried resolution succeeds and bus 1 enters the working set
(with device count 1, undercounting the first sighting). -/
theorem C3_counterexample :
    locateChecks (fun _ _ => false)
        [⟨1, ELO_VENDOR_ID⟩, ⟨1, ELO_VENDOR_ID⟩] ELO_VENDOR_ID
        = [(0, 1), (1, 1)]
      ∧ locateAccepted (fun i _ => i == 1)
        [⟨1, ELO_VENDOR_ID⟩, ⟨1, ELO_VENDOR_ID⟩] ELO_VENDOR_ID
        = [⟨1, 1, sysfsPathFor 1⟩]
      ∧ (fun i (_ : Nat) => i == 1) 0 1 = false :=
  ⟨rfl, rfl, rfl⟩

/-- C3 (amended): a bus whose control path is absent is merely not recorded,
so every one of its sightings re-resolves and re-checks the path: when the
path is absent at every check of the pass, the bus never enters the working
set, and the number of existence checks for it equals the number of
matching devices on it. -/
theorem C3_theorem (pe : Nat → Nat → Bool) (devs : List USBDevice)
    (vid b : Nat) (habs : ∀ i, pe i b = false) :
    (∀ info ∈ locateAccepted pe devs vid, info.bus_number ≠ b)
      ∧ ((locateChecks pe devs vid).filter (fun c => c.2 == b)).length
        = ((devs.filter (fun d => d.idVendor == vid)).filter
            (fun d => d.bus == b)).length := by
  have h := locateLoop_absent pe b habs (matchingDevices devs vid) [] []
    (by intro info hi; cases hi)
  refine ⟨h.1, ?_⟩
  have h2 := h.2
  simp only [List.filter_nil, List.length_nil, Nat.zero_add] at h2
  rw [locateChecks, h2, matchingDevices, List.enum]
  exact enumFrom_filter_snd (fun d => d.bus == b)
    (devs.filter (fun d => d.idVendor == vid)) 0

/-- C3 witness: one device on bus 7 whose control path never exists. -/
theorem C3_witness :
    (∀ info ∈ locateAccepted (fun _ _ => false) [⟨7, ELO_VENDOR_ID⟩]
        ELO_VENDOR_ID, info.bus_number ≠ 7)
      ∧ ((locateChecks (fun _ _ => false) [⟨7, ELO_VENDOR_ID⟩]
          ELO_VENDOR_ID).filter (fun c => c.2 == 7)).length
        = (([(⟨7, ELO_VENDOR_ID⟩ : USBDevice)].filter
            (fun d => d.idVendor == ELO_VENDOR_ID)).filter
            (fun d => d.bus == 7)).length :=
  C3_theorem (fun _ _ => false) [⟨7, ELO_VENDOR_ID⟩] ELO_VENDOR_ID 7
    (fun _ => rfl)

/-! ### C8 -/

/-- C8: under the privilege precondition, the exit code of main matches the
specification's mapping: 130 when cancelled; 1 on a discovery error or an
unexpected error; 0 when zero buses were found; for one or more targeted
buses, 0 when the aggregate counts every bus, 1 on zero successes and 2 on
a partial success. -/
theorem C8_theorem (env : MainEnv) (rd : Option ℚ) (vidOpt : Option Nat)
    (hpriv : env.privileged = true) :
    mainRun env rd vidOpt = exitCode_spec env rd vidOpt := by
  unfold mainRun exitCode_spec
  rw [hpriv]
  simp only [Bool.true_eq_false, if_false]
  by_cases hi : env.interrupted
  · simp [hi]
  · simp only [hi, if_false]
    rcases hf : find_elo_buses env.enumFails env.allDevices env.pathExists
        (mainEffectiveVid vidOpt) with e | bs
    · cases e <;> rfl
    · by_cases hb : bs.isEmpty
      · simp [hb]
      · simp only [hb, if_false]
        split_ifs <;> omega

/-- C8 witness: a privileged run that finds zero buses exits with 0 on both
sides of the refinement. -/
theorem C8_witness :
    mainRun ⟨true, false, false, [], fun _ _ => true, fun _ => true,
        fun _ => true⟩ none none
      = exitCode_spec ⟨true, false, false, [], fun _ _ => true, fun _ => true,
        fun _ => true⟩ none none :=
  C8_theorem ⟨true, false, false, [], fun _ _ => true, fun _ => true,
    fun _ => true⟩ none none rfl

/-! ### C9 -/

/-- C9: discovery raises `USBBusResetError` exactly when the enumeration
facility itself fails; a successful enumeration with zero matching devices
returns the empty set rather than failing; and a run whose enumeration
fails performs no bus write at all. -/
theorem C9_theorem (enumFails : Bool) (devs : List USBDevice)
    (pe : Nat → Nat → Bool) (vid : Nat) :
    (find_elo_buses enumFails devs pe vid = .error .usbBusResetError
        ↔ enumFails = true)
      ∧ (devs.filter (fun d => d.idVendor == vid) = [] →
          find_elo_buses false devs pe vid = .ok [])
      ∧ (∀ (env : MainEnv) (vidOpt : Option Nat),
          env.enumFails = true → mainWrites env vidOpt = []) := by
  refine ⟨⟨?_, ?_⟩, ?_, ?_⟩
  · intro h
    cases enumFails
    · exfalso
      have hdef : find_elo_buses false devs pe vid
          = pySet usbBusInfoHashable (locateAccepted pe devs vid) := rfl
      rw [hdef] at h
      rcases pySet_unhashable_cases (locateAccepted pe devs vid) with h2 | h2 <;>
        · rw [h2] at h
          simp at h
    · rfl
  · intro h
    subst h
    rfl
  · intro h
    have hloc : locateAccepted pe devs vid = [] := by
      unfold locateAccepted matchingDevices
      rw [h]
      rfl
    have hdef : find_elo_buses false devs pe vid
        = pySet usbBusInfoHashable (locateAccepted pe devs vid) := rfl
    rw [hdef, hloc]
    rfl
  · intro env vidOpt he
    obtain ⟨p, i, ef, ad, px, dok, eok⟩ := env
    simp only at he
    subst he
    cases p <;> cases i <;> rfl

end ResetElo
